import Mathlib

/-
Verification of the agent orchestration workflow in agent.py and of the
text-preprocessing fragment in test.py.

The workflow is embedded shallowly: every node wrapper of agent.py becomes a
Lean function from the shared state (plus the response string produced by the
external LLM collaborator that the node invokes) to the pair of the successor
node and the updated state.  The external collaborators (the four ReAct
subgraphs and the two plain LLM calls) are opaque; their responses are
supplied by an oracle indexed by the node and the executor step count.
-/

/-- Python str.strip applied to a string: leading and trailing whitespace
characters are removed. -/
def pyStrip (s : String) : String :=
  ⟨((s.data.dropWhile Char.isWhitespace).reverse.dropWhile Char.isWhitespace).reverse⟩

/-- Python str.lower applied to a string: every character is lowercased. -/
def pyLower (s : String) : String :=
  ⟨s.data.map Char.toLower⟩

/-- Auxiliary scan for substring containment over character lists. -/
def containsAux (needle : List Char) : List Char → Bool
  | [] => needle.isPrefixOf []
  | c :: cs => needle.isPrefixOf (c :: cs) || containsAux needle cs

/-- Python membership test needle in hay on strings. -/
def pyContains (hay needle : String) : Bool :=
  containsAux needle.data hay.data

/-- The named nodes of the orchestration graph built in build_graph of
agent.py, together with the END terminal marker. -/
inductive Node where
  | agent1
  | agent2
  | router1
  | agent3
  | prompt1
  | agent4
  | router2
  | prompt2
  | END
  deriving Repr, DecidableEq

/-- Shared workflow state, translated from the QueryState class of agent.py:
the query text buffer, the two optional Yes/No judgments set by Agent2 and
Agent4, and the debug_info history list. -/
structure QueryState where
  query : String
  agent2_judgment : Option String
  agent4_judgment : Option String
  debug_info : List String
  deriving Repr, DecidableEq

/-- The state a run starts from, as constructed in the demonstration entry
point of agent.py: a raw query, both judgments unset, an empty history. -/
def initState (q : String) : QueryState :=
  { query := q, agent2_judgment := none, agent4_judgment := none, debug_info := [] }

/-- Rendering of an optional judgment inside a Python f-string: None prints
as the text None, a string prints as itself. -/
def optionStr : Option String → String
  | none => "None"
  | some s => s

/-- The JSON payload handed to the Agent4 tools, as the record of its two
fields.  Translated from call_agent4 of agent.py, line 284, which builds
json.dumps on a dict whose query and answer_candidate entries are both
state.query. -/
structure Agent4Payload where
  query : String
  answer_candidate : String
  deriving Repr, DecidableEq

/-- The payload built inside call_agent4: both fields are the whole
accumulated query buffer. -/
def call_agent4_payload (state : QueryState) : Agent4Payload :=
  { query := state.query, answer_candidate := state.query }

/-- Translated from agent4_tool1_check_unanswered of agent.py: answers No
when the query mentions 詳しく but the answer candidate does not, otherwise
Yes. -/
def agent4_tool1_check_unanswered (data : Agent4Payload) : String :=
  if pyContains data.query "詳しく" && ! pyContains data.answer_candidate "詳しく" then
    "No"
  else
    "Yes"

/-- Translated from agent4_tool2_check_technical_words of agent.py: answers
No when the answer candidate contains 専門用語, otherwise Yes. -/
def agent4_tool2_check_technical_words (data : Agent4Payload) : String :=
  if pyContains data.answer_candidate "専門用語" then "No" else "Yes"

/-- Modelled from the spec: the evaluation collaborator combines the results
of its two checks with logical AND.  The combination rule itself lives in the
natural-language description of the agent4_react subgraph in agent.py (if
both are Yes, output Yes; if either is No, output No) and is executed by the
external LLM, so it is modelled here as a function of the two check
results. -/
def agent4_combine (r1 r2 : String) : String :=
  if r1 = "Yes" ∧ r2 = "Yes" then "Yes" else "No"

/-- Translated from call_agent1 of agent.py: the Clarify node appends the
collaborator response to the query buffer, logs it, and advances to
agent2. -/
def call_agent1 (state : QueryState) (final_ans : String) : Node × QueryState :=
  let query := state.query ++ "\n[Agent1 says]: " ++ final_ans
  let debug_info := state.debug_info ++ ["[Agent1] " ++ final_ans]
  (Node.agent2, { state with query := query, debug_info := debug_info })

/-- Translated from call_agent2 of agent.py: the Classify node strips the
collaborator response, replaces anything other than Yes or No with No,
stores the result as agent2_judgment, logs it, and advances to router1. -/
def call_agent2 (state : QueryState) (response : String) : Node × QueryState :=
  let final_ans := pyStrip response
  let final_ans := if ¬ (final_ans = "Yes" ∨ final_ans = "No") then "No" else final_ans
  (Node.router1,
    { state with
        agent2_judgment := some final_ans,
        debug_info := state.debug_info ++ ["[Agent2] judged = " ++ final_ans] })

/-- Translated from call_agent3 of agent.py: the Gather node appends the
collaborator summary to the query buffer, logs it, and advances to
prompt1. -/
def call_agent3 (state : QueryState) (final_ans : String) : Node × QueryState :=
  let query := state.query ++ "\n[Agent3 additional info]:\n" ++ final_ans
  (Node.prompt1,
    { state with
        query := query,
        debug_info := state.debug_info ++ ["[Agent3] " ++ final_ans] })

/-- Translated from call_agent4 of agent.py: the Evaluate node strips the
collaborator response, replaces anything other than Yes or No with No,
stores the result as agent4_judgment, logs it, and advances to router2. -/
def call_agent4 (state : QueryState) (response : String) : Node × QueryState :=
  let final_ans := pyStrip response
  let final_ans := if ¬ (final_ans = "Yes" ∨ final_ans = "No") then "No" else final_ans
  (Node.router2,
    { state with
        agent4_judgment := some final_ans,
        debug_info := state.debug_info ++ ["[Agent4] judged = " ++ final_ans] })

/-- Translated from prompt1 of agent.py: the Draft node appends the stripped
draft answer to the query buffer, logs it, and advances to agent4. -/
def prompt1 (state : QueryState) (response : String) : Node × QueryState :=
  let answer := pyStrip response
  let query := state.query ++ "\n[Prompt1\x27s answer draft]:\n" ++ answer
  (Node.agent4,
    { state with
        query := query,
        debug_info := state.debug_info ++ ["[Prompt1] generated answer draft:\n" ++ answer] })

/-- Translated from prompt2 of agent.py: the Refine node appends the stripped
refined answer to the query buffer, logs it, and advances back to agent2. -/
def prompt2 (state : QueryState) (response : String) : Node × QueryState :=
  let refined_answer := pyStrip response
  let query := state.query ++ "\n[Prompt2 refined answer]:\n" ++ refined_answer
  (Node.agent2,
    { state with
        query := query,
        debug_info := state.debug_info ++ ["[Prompt2] refined answer:\n" ++ refined_answer] })

/-- Translated from router1 of agent.py: when agent2_judgment equals Yes the
run goes to prompt1, otherwise to agent3; the decision is logged. -/
def router1 (state : QueryState) : Node × QueryState :=
  let goto_node := if state.agent2_judgment = some "Yes" then Node.prompt1 else Node.agent3
  let goto_name := if state.agent2_judgment = some "Yes" then "prompt1" else "agent3"
  (goto_node,
    { state with
        debug_info := state.debug_info ++
          ["[Router1] Agent2 = " ++ optionStr state.agent2_judgment ++ " -> " ++ goto_name] })

/-- Translated from router2 of agent.py: when agent4_judgment equals Yes the
run goes to END, otherwise to prompt2; the decision is logged. -/
def router2 (state : QueryState) : Node × QueryState :=
  if state.agent4_judgment = some "Yes" then
    (Node.END, { state with debug_info := state.debug_info ++ ["[Router2] Agent4=Yes => END"] })
  else
    (Node.prompt2, { state with debug_info := state.debug_info ++ ["[Router2] Agent4=No => prompt2"] })

/-- A fixed assignment of collaborator responses: the response a node
receives from its external collaborator when it executes at a given step
index of the run. -/
def Oracle : Type := Node → Nat → String

/-- One executor step: the current node is run on the current state with its
collaborator response, yielding the successor node and the updated state.
The terminal marker is absorbing. -/
def stepNode (o : Oracle) (i : Nat) : Node × QueryState → Node × QueryState
  | (Node.agent1, s) => call_agent1 s (o Node.agent1 i)
  | (Node.agent2, s) => call_agent2 s (o Node.agent2 i)
  | (Node.router1, s) => router1 s
  | (Node.agent3, s) => call_agent3 s (o Node.agent3 i)
  | (Node.prompt1, s) => prompt1 s (o Node.prompt1 i)
  | (Node.agent4, s) => call_agent4 s (o Node.agent4 i)
  | (Node.router2, s) => router2 s
  | (Node.prompt2, s) => prompt2 s (o Node.prompt2 i)
  | (Node.END, s) => (Node.END, s)

/-- Iterated executor steps: run k steps starting at absolute step index i. -/
def runSteps (o : Oracle) : Nat → Nat → Node × QueryState → Node × QueryState
  | _, 0, c => c
  | i, k + 1, c => runSteps o (i + 1) k (stepNode o i c)

/-- Small-step execution relation of the compiled graph: a run of k steps
from one configuration to another, under a fixed oracle, starting at
absolute step index i. -/
inductive Exec (o : Oracle) : Nat → Nat → Node × QueryState → Node × QueryState → Prop where
  | done (i : Nat) (c : Node × QueryState) : Exec o i 0 c c
  | next (i k : Nat) (c c₁ c₂ : Node × QueryState) (hstep : stepNode o i c = c₁)
      (hrest : Exec o (i + 1) k c₁ c₂) : Exec o i (k + 1) c c₂

/-- A judgment field is unset or holds one of the two admissible verdicts. -/
def VerdictOK (v : Option String) : Prop :=
  v = none ∨ v = some "Yes" ∨ v = some "No"

/-- The regular-expression collaborator used by preprocess of test.py.  The
name re is a free identifier in that file, so the substitution operation is
an external dependency: it maps a pattern, a replacement and a subject text
to the substituted text. -/
structure ReModule where
  sub : String → String → String → String

/-- Translated from preprocess of test.py, restricted to its string branch
(the float branch returns a non-string sentinel and is outside the claims).
Each bare index access of the Python source is preceded by the emptiness
test under which Python would raise IndexError; the raised exception is
modelled as the error case of Except. -/
def preprocess (re : ReModule) (text0 : String) : Except String String :=
  let text := re.sub "https?://[\\w!\\?/\\+\\-_~=;\\.,\\*&@#\\$%\\(\\)\x27\\[\\]]+" " " text0
  let text := pyLower text
  let text := re.sub "\\(.*?\\)" " " text
  let text := re.sub "\\s" " " text
  let text := re.sub "â€™" "\x27" text
  let text := re.sub "[^a-zA-z0-9.,?!/&%$\x27]" " " text
  let text := re.sub "," " , " text
  let text := re.sub "!" ". " text
  let text := re.sub "\\." ". " text
  let text := re.sub "\\s+" " " text
  let text := re.sub "[\\s]*\\.[\\.\\s]+" ". " text
  let text := re.sub "\x27 " "\x27" text
  let text := re.sub " l " " i " text
  let text := re.sub " ," "," text
  if text.data = [] then
    Except.error "IndexError: string index out of range"
  else
    let text := if text.takeRight 1 = " " then text.dropRight 1 else text
    if text.data = [] then
      Except.error "IndexError: string index out of range"
    else
      let text := if text.take 1 = " " then text.drop 1 else text
      let text := if text.take 2 = "l " then "i " ++ text.drop 2 else text
      Except.ok text

theorem normalize_mem (a : String) :
    (if ¬ (a = "Yes" ∨ a = "No") then "No" else a) = "Yes" ∨
      (if ¬ (a = "Yes" ∨ a = "No") then "No" else a) = "No" := by
  by_cases h : a = "Yes" ∨ a = "No"
  · rw [if_neg (not_not_intro h)]
    exact h
  · rw [if_pos h]
    exact Or.inr rfl

theorem verdictOK_some {x : String} (h : x = "Yes" ∨ x = "No") : VerdictOK (some x) :=
  Or.inr (h.imp (fun hx => by rw [hx]) (fun hx => by rw [hx]))

theorem router2_judgments (s : QueryState) :
    (router2 s).2.agent2_judgment = s.agent2_judgment ∧
      (router2 s).2.agent4_judgment = s.agent4_judgment := by
  unfold router2
  split <;> exact ⟨rfl, rfl⟩

theorem stepNode_verdictOK (o : Oracle) (i : Nat) (c : Node × QueryState)
    (h2 : VerdictOK c.2.agent2_judgment) (h4 : VerdictOK c.2.agent4_judgment) :
    VerdictOK (stepNode o i c).2.agent2_judgment ∧
      VerdictOK (stepNode o i c).2.agent4_judgment := by
  obtain ⟨n, s⟩ := c
  cases n
  case agent1 => exact ⟨h2, h4⟩
  case agent2 =>
    exact ⟨verdictOK_some (normalize_mem (pyStrip (o Node.agent2 i))), h4⟩
  case router1 => exact ⟨h2, h4⟩
  case agent3 => exact ⟨h2, h4⟩
  case prompt1 => exact ⟨h2, h4⟩
  case agent4 =>
    exact ⟨h2, verdictOK_some (normalize_mem (pyStrip (o Node.agent4 i)))⟩
  case router2 =>
    have h := router2_judgments s
    constructor
    · show VerdictOK (router2 s).2.agent2_judgment
      rw [h.1]
      exact h2
    · show VerdictOK (router2 s).2.agent4_judgment
      rw [h.2]
      exact h4
  case prompt2 => exact ⟨h2, h4⟩
  case END => exact ⟨h2, h4⟩

theorem runSteps_verdictOK (o : Oracle) (k i : Nat) (c : Node × QueryState)
    (h2 : VerdictOK c.2.agent2_judgment) (h4 : VerdictOK c.2.agent4_judgment) :
    VerdictOK (runSteps o i k c).2.agent2_judgment ∧
      VerdictOK (runSteps o i k c).2.agent4_judgment := by
  induction k generalizing i c with
  | zero => exact ⟨h2, h4⟩
  | succ k ih =>
    have h := stepNode_verdictOK o i c h2 h4
    exact ih (i + 1) (stepNode o i c) h.1 h.2

/-- C1: for every run and every response returned by the classification or
evaluation collaborator, the stored classification and evaluation verdicts,
once set, are exactly Yes or No: starting from a state whose judgment fields
are in range, they stay in range after any number of executor steps under an
arbitrary oracle, and any stripped response other than Yes or No is replaced
by No before being stored by call_agent2 and call_agent4. -/
theorem verdicts_always_yes_or_no (o : Oracle) (i k : Nat) (n : Node) (s : QueryState)
    (h2 : VerdictOK s.agent2_judgment) (h4 : VerdictOK s.agent4_judgment)
    (r : String) (hr : ¬ (pyStrip r = "Yes" ∨ pyStrip r = "No")) :
    (VerdictOK (runSteps o i k (n, s)).2.agent2_judgment ∧
      VerdictOK (runSteps o i k (n, s)).2.agent4_judgment) ∧
    ((call_agent2 s r).2.agent2_judgment = some "No" ∧
      (call_agent4 s r).2.agent4_judgment = some "No") := by
  refine ⟨runSteps_verdictOK o k i (n, s) h2 h4, ?_, ?_⟩
  · show some (if ¬ (pyStrip r = "Yes" ∨ pyStrip r = "No") then "No" else pyStrip r) = some "No"
    rw [if_pos hr]
  · show some (if ¬ (pyStrip r = "Yes" ∨ pyStrip r = "No") then "No" else pyStrip r) = some "No"
    rw [if_pos hr]

theorem verdicts_always_yes_or_no_witness :
    (VerdictOK (runSteps (fun _ _ => "banana") 0 8 (Node.agent1, initState "Q")).2.agent2_judgment ∧
      VerdictOK (runSteps (fun _ _ => "banana") 0 8 (Node.agent1, initState "Q")).2.agent4_judgment) ∧
    ((call_agent2 (initState "Q") "banana").2.agent2_judgment = some "No" ∧
      (call_agent4 (initState "Q") "banana").2.agent4_judgment = some "No") :=
  verdicts_always_yes_or_no (fun _ _ => "banana") 0 8 Node.agent1 (initState "Q")
    (Or.inl rfl) (Or.inl rfl) "banana" (by decide)

/-- C2: the RouteByClassification node is a pure function of the stored
classification verdict: for every state its successor is prompt1 when the
verdict is Yes and agent3 otherwise (including when the verdict is unset or
holds any other value), and no successor outside these two is possible. -/
theorem routeByClassification_pure (s : QueryState) :
    (router1 s).1 = (if s.agent2_judgment = some "Yes" then Node.prompt1 else Node.agent3) ∧
    ((router1 s).1 = Node.prompt1 ∨ (router1 s).1 = Node.agent3) := by
  refine ⟨rfl, ?_⟩
  by_cases h : s.agent2_judgment = some "Yes"
  · exact Or.inl (by show (if s.agent2_judgment = some "Yes" then Node.prompt1 else Node.agent3) = _; rw [if_pos h])
  · exact Or.inr (by show (if s.agent2_judgment = some "Yes" then Node.prompt1 else Node.agent3) = _; rw [if_neg h])

/-- C3: the RouteByEvaluation node is a pure function of the stored
evaluation verdict: for every state its successor is the terminal marker END
when the verdict is Yes and prompt2 otherwise, and no successor outside
these two is possible. -/
theorem routeByEvaluation_pure (s : QueryState) :
    (router2 s).1 = (if s.agent4_judgment = some "Yes" then Node.END else Node.prompt2) ∧
    ((router2 s).1 = Node.END ∨ (router2 s).1 = Node.prompt2) := by
  constructor
  · unfold router2
    split <;> rfl
  · unfold router2
    split
    · exact Or.inl rfl
    · exact Or.inr rfl

/-- C5: in every invocation of the Evaluate node, the answer_candidate field
of the JSON payload handed to the evaluation collaborator is the entire
accumulated query buffer, identical to the query field of the same
payload. -/
theorem evaluate_payload_is_full_buffer (s : QueryState) :
    (call_agent4_payload s).answer_candidate = s.query ∧
    (call_agent4_payload s).answer_candidate = (call_agent4_payload s).query :=
  ⟨rfl, rfl⟩

/-- C10: because the Evaluate node builds its tool payload with
answer_candidate equal to query, the completeness tool applied to that
payload returns Yes for every state: its No branch needs 詳しく to occur in
the query but not in the answer candidate, which is impossible when both
fields are the same string. -/
theorem check_unanswered_no_branch_unreachable (s : QueryState) :
    agent4_tool1_check_unanswered (call_agent4_payload s) = "Yes" := by
  unfold agent4_tool1_check_unanswered call_agent4_payload
  simp [Bool.and_not_self]

/-- C4: the query buffer is append-only: for every node of the workflow, the
query value after the node runs has the query value before it as a prefix,
and so its length never decreases. -/
theorem query_append_only (o : Oracle) (i : Nat) (n : Node) (s : QueryState) :
    (∃ t, (stepNode o i (n, s)).2.query = s.query ++ t) ∧
    s.query.length ≤ (stepNode o i (n, s)).2.query.length := by
  have hpre : ∃ t, (stepNode o i (n, s)).2.query = s.query ++ t := by
    cases n
    case agent1 =>
      refine ⟨"\n[Agent1 says]: " ++ o Node.agent1 i, ?_⟩
      show s.query ++ "\n[Agent1 says]: " ++ o Node.agent1 i = _
      rw [String.append_assoc]
    case agent2 => exact ⟨"", (String.append_empty s.query).symm⟩
    case router1 => exact ⟨"", (String.append_empty s.query).symm⟩
    case agent3 =>
      refine ⟨"\n[Agent3 additional info]:\n" ++ o Node.agent3 i, ?_⟩
      show s.query ++ "\n[Agent3 additional info]:\n" ++ o Node.agent3 i = _
      rw [String.append_assoc]
    case prompt1 =>
      refine ⟨"\n[Prompt1\x27s answer draft]:\n" ++ pyStrip (o Node.prompt1 i), ?_⟩
      show s.query ++ "\n[Prompt1\x27s answer draft]:\n" ++ pyStrip (o Node.prompt1 i) = _
      rw [String.append_assoc]
    case agent4 => exact ⟨"", (String.append_empty s.query).symm⟩
    case router2 =>
      refine ⟨"", ?_⟩
      show (router2 s).2.query = s.query ++ ""
      unfold router2
      split <;> exact (String.append_empty s.query).symm
    case prompt2 =>
      refine ⟨"\n[Prompt2 refined answer]:\n" ++ pyStrip (o Node.prompt2 i), ?_⟩
      show s.query ++ "\n[Prompt2 refined answer]:\n" ++ pyStrip (o Node.prompt2 i) = _
      rw [String.append_assoc]
    case END => exact ⟨"", (String.append_empty s.query).symm⟩
  refine ⟨hpre, ?_⟩
  obtain ⟨t, ht⟩ := hpre
  rw [ht, String.length_append]
  exact Nat.le_add_right _ _

theorem normalized_strip_yes :
    (if ¬ (pyStrip "Yes" = "Yes" ∨ pyStrip "Yes" = "No") then "No" else pyStrip "Yes") = "Yes" := by
  decide

theorem normalized_strip_no :
    (if ¬ (pyStrip "No" = "Yes" ∨ pyStrip "No" = "No") then "No" else pyStrip "No") = "No" := by
  decide

/-- C6: when the evaluation collaborator combines its two check results as
its description demands, the Evaluate node sets the evaluation verdict to
Yes exactly when both the answer-completeness check and the too-technical
check returned Yes; every other combination yields No. -/
theorem evaluate_accepts_iff_both_checks (s : QueryState) (r1 r2 : String) :
    ((call_agent4 s (agent4_combine r1 r2)).2.agent4_judgment = some "Yes") ↔
      (r1 = "Yes" ∧ r2 = "Yes") := by
  by_cases h : r1 = "Yes" ∧ r2 = "Yes"
  · have hc : agent4_combine r1 r2 = "Yes" := by
      unfold agent4_combine
      rw [if_pos h]
    rw [hc]
    constructor
    · intro _
      exact h
    · intro _
      show some (if ¬ (pyStrip "Yes" = "Yes" ∨ pyStrip "Yes" = "No") then "No" else pyStrip "Yes") = some "Yes"
      rw [normalized_strip_yes]
  · have hc : agent4_combine r1 r2 = "No" := by
      unfold agent4_combine
      rw [if_neg h]
    rw [hc]
    constructor
    · intro hy
      exfalso
      have hv : some (if ¬ (pyStrip "No" = "Yes" ∨ pyStrip "No" = "No") then "No" else pyStrip "No") = some "Yes" := hy
      rw [normalized_strip_no] at hv
      exact absurd (Option.some.inj hv) (by decide)
    · intro hy
      exact absurd hy h

theorem stepNode_no_end (o : Oracle) (h : ∀ k, o Node.agent4 k = "No") (i : Nat)
    (c : Node × QueryState) (hc1 : c.1 ≠ Node.END) (hc2 : c.2.agent4_judgment ≠ some "Yes") :
    (stepNode o i c).1 ≠ Node.END ∧ (stepNode o i c).2.agent4_judgment ≠ some "Yes" := by
  obtain ⟨n, s⟩ := c
  cases n
  case agent1 => exact ⟨fun hx => Node.noConfusion hx, hc2⟩
  case agent2 => exact ⟨fun hx => Node.noConfusion hx, hc2⟩
  case router1 =>
    refine ⟨?_, hc2⟩
    by_cases hy : s.agent2_judgment = some "Yes"
    · show (if s.agent2_judgment = some "Yes" then Node.prompt1 else Node.agent3) ≠ Node.END
      rw [if_pos hy]
      decide
    · show (if s.agent2_judgment = some "Yes" then Node.prompt1 else Node.agent3) ≠ Node.END
      rw [if_neg hy]
      decide
  case agent3 => exact ⟨fun hx => Node.noConfusion hx, hc2⟩
  case prompt1 => exact ⟨fun hx => Node.noConfusion hx, hc2⟩
  case agent4 =>
    refine ⟨fun hx => Node.noConfusion hx, ?_⟩
    show (call_agent4 s (o Node.agent4 i)).2.agent4_judgment ≠ some "Yes"
    rw [h i]
    show some (if ¬ (pyStrip "No" = "Yes" ∨ pyStrip "No" = "No") then "No" else pyStrip "No") ≠ some "Yes"
    rw [normalized_strip_no]
    decide
  case router2 =>
    have hr : router2 s =
        (Node.prompt2, { s with debug_info := s.debug_info ++ ["[Router2] Agent4=No => prompt2"] }) := by
      unfold router2
      rw [if_neg hc2]
    have hs : stepNode o i (Node.router2, s) = router2 s := rfl
    rw [hs, hr]
    exact ⟨fun hx => Node.noConfusion hx, hc2⟩
  case prompt2 => exact ⟨fun hx => Node.noConfusion hx, hc2⟩
  case END => exact absurd rfl hc1

theorem runSteps_no_end (o : Oracle) (h : ∀ k, o Node.agent4 k = "No") (k i : Nat)
    (c : Node × QueryState) (hc1 : c.1 ≠ Node.END) (hc2 : c.2.agent4_judgment ≠ some "Yes") :
    (runSteps o i k c).1 ≠ Node.END ∧ (runSteps o i k c).2.agent4_judgment ≠ some "Yes" := by
  induction k generalizing i c with
  | zero => exact ⟨hc1, hc2⟩
  | succ k ih =>
    have hstep := stepNode_no_end o h i c hc1 hc2
    exact ih (i + 1) (stepNode o i c) hstep.1 hstep.2

/-- C7: the executor enforces no step or iteration limit: when the
evaluation collaborator answers No on every invocation, a run started from
the initial state never reaches the terminal marker, however many steps are
taken, so for every bound there is a longer execution. -/
theorem no_iteration_limit (o : Oracle) (h : ∀ k, o Node.agent4 k = "No") (q : String) (k : Nat) :
    (runSteps o 0 k (Node.agent1, initState q)).1 ≠ Node.END :=
  (runSteps_no_end o h k 0 (Node.agent1, initState q) (fun hx => Node.noConfusion hx) (fun hx => Option.noConfusion hx)).1

theorem no_iteration_limit_witness :
    (runSteps (fun _ _ => "No") 0 12 (Node.agent1, initState "質問")).1 ≠ Node.END :=
  no_iteration_limit (fun _ _ => "No") (fun _ => rfl) "質問" 12

theorem exec_eq_runSteps (o : Oracle) (i k : Nat) (c c' : Node × QueryState)
    (h : Exec o i k c c') : c' = runSteps o i k c := by
  induction h with
  | done i c => rfl
  | next i k c c₁ c₂ hstep hrest ih =>
    show c₂ = runSteps o (i + 1) k (stepNode o i c)
    rw [hstep]
    exact ih

/-- C8: given one fixed assignment of collaborator responses, any two
executions of the same length from the same initial state end in
configurations with identical query contents and identical debug_info
contents. -/
theorem run_deterministic (o : Oracle) (n : Nat) (q : String) (c₁ c₂ : Node × QueryState)
    (h1 : Exec o 0 n (Node.agent1, initState q) c₁)
    (h2 : Exec o 0 n (Node.agent1, initState q) c₂) :
    c₁.2.query = c₂.2.query ∧ c₁.2.debug_info = c₂.2.debug_info := by
  have e1 := exec_eq_runSteps o 0 n (Node.agent1, initState q) c₁ h1
  have e2 := exec_eq_runSteps o 0 n (Node.agent1, initState q) c₂ h2
  rw [e1, e2]
  exact ⟨rfl, rfl⟩

theorem run_deterministic_witness :
    (stepNode (fun _ _ => "OK") 0 (Node.agent1, initState "hello")).2.query =
      (stepNode (fun _ _ => "OK") 0 (Node.agent1, initState "hello")).2.query ∧
    (stepNode (fun _ _ => "OK") 0 (Node.agent1, initState "hello")).2.debug_info =
      (stepNode (fun _ _ => "OK") 0 (Node.agent1, initState "hello")).2.debug_info :=
  run_deterministic (fun _ _ => "OK") 1 "hello" _ _
    (Exec.next 0 0 _ _ _ rfl (Exec.done 1 _))
    (Exec.next 0 0 _ _ _ rfl (Exec.done 1 _))

theorem pyLower_space : pyLower " " = " " := by decide

/-- C9: preprocess performs unguarded index accesses on a possibly empty
string: on the one-character input consisting of a single space, which the
substitution passes leave unchanged, the trailing-space branch empties the
string and the following front-index access is out of bounds, so preprocess
fails with an index error instead of returning a string. -/
theorem preprocess_unguarded_index (re : ReModule) (h : ∀ p r, re.sub p r " " = " ") :
    preprocess re " " = Except.error "IndexError: string index out of range" := by
  simp only [preprocess, h, pyLower_space]
  rfl

theorem preprocess_unguarded_index_witness :
    preprocess ⟨fun _ _ t => t⟩ " " = Except.error "IndexError: string index out of range" :=
  preprocess_unguarded_index ⟨fun _ _ t => t⟩ (fun _ _ => rfl)
